import Mathlib

/-!
# Instance-status persistence of the oVirt machine actuator

A shallow embedding of `pkg/cloud/ovirt/machine/instancestatus.go`: the four methods
`instanceStatus`, `updateInstanceStatus`, `machineInstanceStatus` and
`setMachineInstanceStatus` of `OvirtClient`, and what they do to the records they are given
and to their collaborators.

How the Go code is read:

* A `*machinev1.Machine` is an address (`Ptr`) into a heap of `Machine` objects, and a
  pointer that may be `nil` is an `Option Ptr`.  Every pointer the functions receive or get
  back from the registry is such an `Option Ptr`.  Reading a field through `nil` and assigning
  into a `nil` map are run-time panics of Go; they end the call with `Outcome.panicked` and
  leave the state as it was at that point.
* `machinev1.Machine` is an imported type.  It is reduced to `TypeMeta`, the three fields of
  `ObjectMeta` the file touches (`Name`, `Namespace`, `Annotations`) and two payload fields
  standing for everything the file never looks at.  An annotation map is `nil` (`none`) or an
  association list, and it belongs to its record: two records do not share one map.
* The registry (`machinesClient.Machines(ns).Get`, `client.Update`) and the JSON serializer
  (`Encode`, `Decode`) are collaborators and are parameters of the model (`OvirtClient`).
  `Get` answers with a pointer into the heap and an error.  Every call to a collaborator, with
  its arguments and its answer, and every log line is appended to the trace of the state, so
  that "is performed", "is not performed" and "succeeded" are statements about the trace.
* The receiver `ovirtClient` is not `nil`.
-/

namespace Ovirt

/-! ## Data model -/

/-- Go `error` values: API status errors handed back by the registry (with their reason,
such as `NotFound`) and plain message errors as built by `fmt.Errorf`. -/
inductive Error where
  | StatusError (reason : String) (message : String)
  | errorString (s : String)
  deriving DecidableEq, Repr

/-- The method `err.Error()`: the message of an error. -/
def Error.msg : Error → String
  | .StatusError _ m => m
  | .errorString s => s

/-- The predicate `errors.IsNotFound` of the API machinery. -/
def IsNotFound : Error → Bool
  | .StatusError r _ => r == "NotFound"
  | .errorString _ => false

/-- The call `fmt.Errorf(format, arg)` for a format that ends in its single verb. -/
def Errorf (format : String) (arg : String) : Error :=
  .errorString (format ++ arg)

/-- A Go `map[string]string` that is not `nil`, as an association list. -/
abbrev StringMap := List (String × String)

/-- The assignment `m[k] = v` on a map that is not `nil`. -/
def mapSet : StringMap → String → String → StringMap
  | [], k, v => [(k, v)]
  | (k', v') :: rest, k, v =>
    if k' = k then (k, v) :: rest else (k', v') :: mapSet rest k v

/-- The two-valued read `v, ok := m[k]`, valid on a `nil` map too. -/
def mapLookup (m : Option StringMap) (k : String) : Option String :=
  match m with
  | none => none
  | some l => l.lookup k

/-- The read `m[k]`: an absent key (and any key of a `nil` map) reads as the zero value `""`. -/
def mapGet (m : Option StringMap) (k : String) : String :=
  (mapLookup m k).getD ""

structure TypeMeta where
  Kind : String
  APIVersion : String
  deriving DecidableEq, Repr

structure ObjectMeta where
  Name : String
  Namespace : String
  Annotations : Option StringMap
  deriving DecidableEq, Repr

/-- The record `machinev1.Machine`; `Spec` and `Status` stand for the fields this file never
reads or writes. -/
structure Machine where
  TypeMeta : TypeMeta
  ObjectMeta : ObjectMeta
  Spec : String
  Status : String
  deriving DecidableEq, Repr

/-- The zero value of `machinev1.Machine` (`var status machinev1.Machine`). -/
def Machine.zero : Machine :=
  ⟨⟨"", ""⟩, ⟨"", "", none⟩, "", ""⟩

structure GroupVersionKind where
  Group : String
  Version : String
  Kind : String
  deriving DecidableEq, Repr

def InstanceStatusAnnotationKey : String := "instance-status"

/-- The record `m` after `m.Annotations[k] = v`, the map being made first when it is `nil`
(what lines 112-115 do to the live record). -/
def annotate (m : Machine) (k v : String) : Machine :=
  { m with ObjectMeta := { m.ObjectMeta with
      Annotations := some (mapSet (m.ObjectMeta.Annotations.getD []) k v) } }

/-! ## State, effects and collaborators -/

abbrev Ptr := Nat

deriving instance DecidableEq for Except

/-- What a call does to the outside world, in order: the calls to the registry and to the
serializer, each with what it was given and what it answered, and the log lines. -/
inductive Event where
  | Get (ns : String) (name : String) (res : Option Ptr × Option Error)
  | Update (m : Option Ptr) (obj : Option Machine) (res : Option Error)
  | Encode (obj : Machine) (res : Except Error String)
  | Decode (data : String) (gvk : GroupVersionKind) (res : Except Error Machine)
  | Errorf (msg : String)
  | Infof (msg : String)
  deriving DecidableEq, Repr

structure State where
  heap : Ptr → Machine
  next : Ptr
  trace : List Event

inductive Outcome (α : Type) where
  | returned (v : α)
  | panicked (msg : String)
  deriving DecidableEq, Repr

/-- The collaborators of an `OvirtClient`: the typed machines client, the generic client and
the serializer built from the scheme. -/
structure OvirtClient where
  Get : String → String → Option Ptr × Option Error
  Update : Option Ptr → (Ptr → Machine) → Option Error
  Encode : Machine → Except Error String
  Decode : String → GroupVersionKind → Except Error Machine

/-- Computations of the model: they read and write the state and either return or panic. -/
def Go (α : Type) : Type := State → Outcome α × State

def Go.pure {α : Type} (a : α) : Go α := fun st => (.returned a, st)

def Go.bind {α β : Type} (x : Go α) (f : α → Go β) : Go β := fun st =>
  match x st with
  | (.returned a, st') => f a st'
  | (.panicked msg, st') => (.panicked msg, st')

instance : Monad Go where
  pure := Go.pure
  bind := Go.bind

def goPanic {α : Type} (msg : String) : Go α := fun st => (.panicked msg, st)

def emit (e : Event) : Go Unit := fun st =>
  (.returned (), { st with trace := st.trace ++ [e] })

/-- Following a pointer, as every `p.field` does first: a nil pointer panics. -/
def deref (p : Option Ptr) : Go Ptr :=
  match p with
  | none => goPanic "invalid memory address or nil pointer dereference"
  | some a => Go.pure a

def read (a : Ptr) : Go Machine := fun st => (.returned (st.heap a), st)

def write (a : Ptr) (m : Machine) : Go Unit := fun st =>
  (.returned (), { st with heap := Function.update st.heap a m })

/-- A new variable whose address is taken: a fresh object on the heap. -/
def alloc (m : Machine) : Go Ptr := fun st =>
  (.returned st.next, { st with heap := Function.update st.heap st.next m, next := st.next + 1 })

/-- The call `machinesClient.Machines(ns).Get(name, v1.GetOptions{})`. -/
def callGet (c : OvirtClient) (ns name : String) : Go (Option Ptr × Option Error) := fun st =>
  (.returned (c.Get ns name), { st with trace := st.trace ++ [.Get ns name (c.Get ns name)] })

/-- The call `client.Update(nil, m)`. -/
def callUpdate (c : OvirtClient) (m : Option Ptr) : Go (Option Error) := fun st =>
  (.returned (c.Update m st.heap),
    { st with trace := st.trace ++ [.Update m (m.map st.heap) (c.Update m st.heap)] })

/-- The call `serializer.Encode(status, buff)` followed by `buff.String()`. -/
def callEncode (c : OvirtClient) (status : Ptr) : Go (Except Error String) := fun st =>
  (.returned (c.Encode (st.heap status)),
    { st with trace := st.trace ++ [.Encode (st.heap status) (c.Encode (st.heap status))] })

/-- The call `serializer.Decode([]byte(a), &gvk, &status)`, which fills `status` when it
succeeds. -/
def callDecode (c : OvirtClient) (a : String) (gvk : GroupVersionKind) (status : Ptr) :
    Go (Option Error) := fun st =>
  match c.Decode a gvk with
  | .error err =>
    (.returned (some err), { st with trace := st.trace ++ [.Decode a gvk (.error err)] })
  | .ok v =>
    (.returned none, { st with
      heap := Function.update st.heap status v, trace := st.trace ++ [.Decode a gvk (.ok v)] })

/-! ## The functions of `instancestatus.go` -/

/-- Gets the state of the instance stored on the given machine CRD (lines 76-97). -/
def machineInstanceStatus (c : OvirtClient) (machine : Option Ptr) :
    Go (Option Ptr × Option Error) := do
  let mp ← deref machine
  let m ← read mp
  if m.ObjectMeta.Annotations = none then
    return (none, none)
  else
    let a := mapGet m.ObjectMeta.Annotations InstanceStatusAnnotationKey
    if a = "" then
      return (none, none)
    else
      let status ← alloc Machine.zero
      let err ← callDecode c a ⟨"machine.openshift.io", "v1beta1", "Machine"⟩ status
      match err with
      | some e => return (none, some (Errorf "decoding failure: " e.msg))
      | none => return (some status, none)

/-- Applies the state of an instance onto a given machine CRD (lines 99-117). -/
def setMachineInstanceStatus (c : OvirtClient) (machine : Option Ptr) (status : Option Ptr) :
    Go (Option Ptr × Option Error) := do
  let sp ← deref status
  let s ← read sp
  match s.ObjectMeta.Annotations with
  | none => goPanic "assignment to entry in nil map"
  | some anns =>
    let cleared := mapSet anns InstanceStatusAnnotationKey ""
    write sp { s with ObjectMeta := { s.ObjectMeta with Annotations := some cleared } }
    let r ← callEncode c sp
    match r with
    | .error err => return (none, some (Errorf "encoding failure: " err.msg))
    | .ok buff =>
      let mp ← deref machine
      let m ← read mp
      if m.ObjectMeta.Annotations = none then
        write mp { m with ObjectMeta := { m.ObjectMeta with Annotations := some [] } }
      let m ← read mp
      let anns := mapSet (m.ObjectMeta.Annotations.getD []) InstanceStatusAnnotationKey buff
      write mp { m with ObjectMeta := { m.ObjectMeta with Annotations := some anns } }
      return (machine, none)

/-- Get the status of the instance identified by the given machine (lines 39-53). -/
def instanceStatus (c : OvirtClient) (machine : Option Ptr) :
    Go (Option Ptr × Option Error) := do
  let mp ← deref machine
  let m ← read mp
  let (currentMachine, err) ← callGet c "openshift-machine-api" m.ObjectMeta.Name
  match err with
  | some e =>
    let m ← read mp
    emit (.Errorf ("Didn't find mahine with namespace: " ++ m.ObjectMeta.Namespace
      ++ " and name: " ++ m.ObjectMeta.Name))
    return (none, some e)
  | none =>
    let cp ← deref currentMachine
    let cur ← read cp
    emit (.Infof ("Found machine " ++ cur.ObjectMeta.Name))
    if currentMachine = none then
      return (none, none)
    else
      machineInstanceStatus c currentMachine

/-- Sets the status of the instance identified by the given machine to the given machine
(lines 55-74). -/
def updateInstanceStatus (c : OvirtClient) (machine : Option Ptr) : Go (Option Error) := do
  let status := machine
  let mp ← deref machine
  let m ← read mp
  let (currentMachine, err) ← callGet c "openshift-machine-api" m.ObjectMeta.Name
  match err with
  | some e => return some e
  | none =>
    if currentMachine = none then
      let m ← read mp
      return some (Errorf
        "Machine has already been deleted. Cannot update current instance status for machine "
        m.ObjectMeta.Name)
    else
      let (m, err) ← setMachineInstanceStatus c currentMachine status
      match err with
      | some e => return some e
      | none => callUpdate c m

/-- The events a computation adds to the trace when it is run from `st`. -/
def newEvents {α : Type} (x : Go α) (st : State) : List Event :=
  (x st).2.trace.drop st.trace.length

def Event.isUpdate : Event → Bool
  | .Update _ _ _ => true
  | _ => false

/-! ## Concrete records, states and collaborators used to run the model -/

/-- A snapshot that carries annotations. -/
def node1 : Machine :=
  ⟨⟨"Machine", "machine.openshift.io/v1beta1"⟩,
    ⟨"node-1", "openshift-machine-api", some [("owner", "infra")]⟩, "spec-x", "status-x"⟩

/-- The same snapshot with no annotation map at all. -/
def node1Bare : Machine :=
  ⟨⟨"Machine", "machine.openshift.io/v1beta1"⟩,
    ⟨"node-1", "openshift-machine-api", none⟩, "spec-x", "status-x"⟩

/-- The live record of the registry, `{name: "node-1", annotations: nil}`. -/
def node1Live : Machine :=
  ⟨⟨"Machine", "machine.openshift.io/v1beta1"⟩,
    ⟨"node-1", "openshift-machine-api", none⟩, "spec-live", "status-live"⟩

/-- A live record whose stored status text is malformed. -/
def node1Corrupt : Machine :=
  ⟨⟨"Machine", "machine.openshift.io/v1beta1"⟩,
    ⟨"node-1", "openshift-machine-api", some [("instance-status", "(not json")]⟩,
    "spec-live", "status-live"⟩

/-- A heap with `node1` at 0, `node1Live` at 1, `node1Bare` at 2 and `node1Corrupt` at 3. -/
def fixtureHeap : Ptr → Machine := fun p =>
  if p = 0 then node1 else if p = 1 then node1Live else if p = 2 then node1Bare
  else if p = 3 then node1Corrupt else Machine.zero

def fixtureState : State := ⟨fixtureHeap, 4, []⟩

/-- A textual rendering of a record, standing for the JSON document. -/
def render (m : Machine) : String :=
  m.TypeMeta.Kind ++ " " ++ m.ObjectMeta.Name ++ " " ++ m.Spec ++ " " ++ m.Status ++
    (match m.ObjectMeta.Annotations with
     | none => ""
     | some l => " annotations" ++ String.join (l.map fun kv => " " ++ kv.1 ++ "=" ++ kv.2))

/-- The records the fixture serializer knows how to read back. -/
def knownRecords : List Machine :=
  [node1, node1Bare, annotate node1 InstanceStatusAnnotationKey "",
    annotate node1Bare InstanceStatusAnnotationKey ""]

/-- A client whose registry answers every `Get` with `answer`, whose `Update` succeeds, and
whose serializer writes `render` and reads back the known records. -/
def fixtureClient (answer : Option Ptr × Option Error) : OvirtClient where
  Get := fun _ _ => answer
  Update := fun _ _ => none
  Encode := fun m => .ok (render m)
  Decode := fun data _ =>
    match knownRecords.find? (fun m => render m == data) with
    | some m => .ok m
    | none => .error (.errorString "invalid character")

/-- The registry error for a record that does not exist. -/
def notFound : Error :=
  .StatusError "NotFound" "machines.machine.openshift.io \"node-1\" not found"

/-- A registry error other than not-found. -/
def unavailable : Error :=
  .StatusError "ServiceUnavailable" "the server is currently unable to handle the request"

/-! ## Lemmas on maps -/

theorem lookup_mapSet_same (m : StringMap) (k v : String) :
    (mapSet m k v).lookup k = some v := by
  induction m with
  | nil => simp [mapSet, List.lookup]
  | cons hd tl ih =>
    obtain ⟨k', v'⟩ := hd
    by_cases h : k' = k
    · simp [mapSet, h, List.lookup]
    · have h' : (k == k') = false := by simpa using fun e => h e.symm
      simp [mapSet, h, List.lookup, h', ih]

theorem lookup_mapSet_other (m : StringMap) (k v k' : String) (hk : k' ≠ k) :
    (mapSet m k v).lookup k' = m.lookup k' := by
  induction m with
  | nil =>
    have h' : (k' == k) = false := by simpa using hk
    simp [mapSet, List.lookup, h']
  | cons hd tl ih =>
    obtain ⟨k0, v0⟩ := hd
    by_cases h : k0 = k
    · subst h
      have h' : (k' == k0) = false := by simpa using hk
      simp [mapSet, List.lookup, h']
    · simp only [mapSet, h, if_false, List.lookup]
      cases (k' == k0) <;> simp [ih]

theorem mapGet_annotate_same (m : Machine) (k v : String) :
    mapGet (annotate m k v).ObjectMeta.Annotations k = v := by
  simp [mapGet, mapLookup, annotate, lookup_mapSet_same]

theorem mapLookup_annotate_other (m : Machine) (k v k' : String) (hk : k' ≠ k) :
    mapLookup (annotate m k v).ObjectMeta.Annotations k' =
      mapLookup m.ObjectMeta.Annotations k' := by
  cases h : m.ObjectMeta.Annotations with
  | none =>
    simp only [mapLookup, annotate, h, Option.getD]
    exact lookup_mapSet_other [] k v k' hk
  | some l => simp [mapLookup, annotate, h, lookup_mapSet_other _ _ _ _ hk]

/-! ## What each function computes -/

theorem setMachineInstanceStatus_nil_map (c : OvirtClient) (machine : Option Ptr) (sp : Ptr)
    (st : State) (h : (st.heap sp).ObjectMeta.Annotations = none) :
    setMachineInstanceStatus c machine (some sp) st =
      (.panicked "assignment to entry in nil map", st) := by
  simp [setMachineInstanceStatus, bind, Go.bind, deref, Go.pure, read, h, goPanic]

theorem setMachineInstanceStatus_encode_error (c : OvirtClient) (machine : Option Ptr)
    (sp : Ptr) (st : State) (err : Error)
    (h : (st.heap sp).ObjectMeta.Annotations ≠ none)
    (he : c.Encode (annotate (st.heap sp) InstanceStatusAnnotationKey "") = .error err) :
    setMachineInstanceStatus c machine (some sp) st =
      (.returned (none, some (Errorf "encoding failure: " err.msg)),
        { st with
          heap := Function.update st.heap sp
            (annotate (st.heap sp) InstanceStatusAnnotationKey "")
          trace := st.trace ++
            [.Encode (annotate (st.heap sp) InstanceStatusAnnotationKey "") (.error err)] }) := by
  cases ha : (st.heap sp).ObjectMeta.Annotations with
  | none => exact absurd ha h
  | some anns =>
    have hw : annotate (st.heap sp) InstanceStatusAnnotationKey "" =
        { st.heap sp with ObjectMeta := { (st.heap sp).ObjectMeta with
            Annotations := some (mapSet anns InstanceStatusAnnotationKey "") } } := by
      simp [annotate, ha]
    rw [hw] at he ⊢
    simp [setMachineInstanceStatus, bind, Go.bind, deref, Go.pure, read, write, callEncode,
      ha, he, pure]

theorem setMachineInstanceStatus_ok (c : OvirtClient) (lp sp : Ptr) (st : State)
    (text : String)
    (h : (st.heap sp).ObjectMeta.Annotations ≠ none)
    (he : c.Encode (annotate (st.heap sp) InstanceStatusAnnotationKey "") = .ok text) :
    setMachineInstanceStatus c (some lp) (some sp) st =
      (.returned (some lp, none),
        { st with
          heap := Function.update
            (Function.update st.heap sp
              (annotate (st.heap sp) InstanceStatusAnnotationKey ""))
            lp
            (annotate
              (Function.update st.heap sp
                (annotate (st.heap sp) InstanceStatusAnnotationKey "") lp)
              InstanceStatusAnnotationKey text)
          trace := st.trace ++
            [.Encode (annotate (st.heap sp) InstanceStatusAnnotationKey "") (.ok text)] }) := by
  cases ha : (st.heap sp).ObjectMeta.Annotations with
  | none => exact absurd ha h
  | some anns =>
    have hw : annotate (st.heap sp) InstanceStatusAnnotationKey "" =
        { st.heap sp with ObjectMeta := { (st.heap sp).ObjectMeta with
            Annotations := some (mapSet anns InstanceStatusAnnotationKey "") } } := by
      simp [annotate, ha]
    rw [hw] at he ⊢
    generalize hc : ({ st.heap sp with ObjectMeta := { (st.heap sp).ObjectMeta with
            Annotations := some (mapSet anns InstanceStatusAnnotationKey "") } } : Machine) = cl
      at he ⊢
    cases hl : (Function.update st.heap sp cl lp).ObjectMeta.Annotations with
    | none =>
      simp [setMachineInstanceStatus, bind, Go.bind, deref, Go.pure, read, write, callEncode,
        ha, he, pure, hc, hl, annotate]
    | some la =>
      simp [setMachineInstanceStatus, bind, Go.bind, deref, Go.pure, read, write, callEncode,
        ha, he, pure, hc, hl, annotate]

theorem setMachineInstanceStatus_nil_machine (c : OvirtClient) (sp : Ptr) (st : State)
    (text : String)
    (h : (st.heap sp).ObjectMeta.Annotations ≠ none)
    (he : c.Encode (annotate (st.heap sp) InstanceStatusAnnotationKey "") = .ok text) :
    setMachineInstanceStatus c none (some sp) st =
      (.panicked "invalid memory address or nil pointer dereference",
        { st with
          heap := Function.update st.heap sp
            (annotate (st.heap sp) InstanceStatusAnnotationKey "")
          trace := st.trace ++
            [.Encode (annotate (st.heap sp) InstanceStatusAnnotationKey "") (.ok text)] }) := by
  cases ha : (st.heap sp).ObjectMeta.Annotations with
  | none => exact absurd ha h
  | some anns =>
    have hw : annotate (st.heap sp) InstanceStatusAnnotationKey "" =
        { st.heap sp with ObjectMeta := { (st.heap sp).ObjectMeta with
            Annotations := some (mapSet anns InstanceStatusAnnotationKey "") } } := by
      simp [annotate, ha]
    rw [hw] at he ⊢
    simp [setMachineInstanceStatus, bind, Go.bind, deref, Go.pure, read, write, callEncode,
      ha, he, pure, goPanic]

theorem machineInstanceStatus_no_state (c : OvirtClient) (mp : Ptr) (st : State)
    (h : mapGet (st.heap mp).ObjectMeta.Annotations InstanceStatusAnnotationKey = "") :
    machineInstanceStatus c (some mp) st = (.returned (none, none), st) := by
  cases ha : (st.heap mp).ObjectMeta.Annotations with
  | none => simp [machineInstanceStatus, bind, Go.bind, deref, Go.pure, read, ha, pure]
  | some anns =>
    rw [ha] at h
    simp [machineInstanceStatus, bind, Go.bind, deref, Go.pure, read, ha, h, pure]

theorem machineInstanceStatus_decode_error (c : OvirtClient) (mp : Ptr) (st : State)
    (err : Error)
    (h : mapGet (st.heap mp).ObjectMeta.Annotations InstanceStatusAnnotationKey ≠ "")
    (hd : c.Decode (mapGet (st.heap mp).ObjectMeta.Annotations InstanceStatusAnnotationKey)
      ⟨"machine.openshift.io", "v1beta1", "Machine"⟩ = .error err) :
    machineInstanceStatus c (some mp) st =
      (.returned (none, some (Errorf "decoding failure: " err.msg)),
        { heap := Function.update st.heap st.next Machine.zero
          next := st.next + 1
          trace := st.trace ++
            [.Decode (mapGet (st.heap mp).ObjectMeta.Annotations InstanceStatusAnnotationKey)
              ⟨"machine.openshift.io", "v1beta1", "Machine"⟩ (.error err)] }) := by
  cases ha : (st.heap mp).ObjectMeta.Annotations with
  | none => simp [ha, mapGet, mapLookup] at h
  | some anns =>
    rw [ha] at h hd
    simp [machineInstanceStatus, bind, Go.bind, deref, Go.pure, read, ha, h, pure, alloc,
      callDecode, hd]

theorem machineInstanceStatus_ok (c : OvirtClient) (mp : Ptr) (st : State) (v : Machine)
    (h : mapGet (st.heap mp).ObjectMeta.Annotations InstanceStatusAnnotationKey ≠ "")
    (hd : c.Decode (mapGet (st.heap mp).ObjectMeta.Annotations InstanceStatusAnnotationKey)
      ⟨"machine.openshift.io", "v1beta1", "Machine"⟩ = .ok v) :
    machineInstanceStatus c (some mp) st =
      (.returned (some st.next, none),
        { heap := Function.update (Function.update st.heap st.next Machine.zero) st.next v
          next := st.next + 1
          trace := st.trace ++
            [.Decode (mapGet (st.heap mp).ObjectMeta.Annotations InstanceStatusAnnotationKey)
              ⟨"machine.openshift.io", "v1beta1", "Machine"⟩ (.ok v)] }) := by
  cases ha : (st.heap mp).ObjectMeta.Annotations with
  | none => simp [ha, mapGet, mapLookup] at h
  | some anns =>
    rw [ha] at h hd
    simp [machineInstanceStatus, bind, Go.bind, deref, Go.pure, read, ha, h, pure, alloc,
      callDecode, hd]

theorem instanceStatus_get_error (c : OvirtClient) (mp : Ptr) (st : State)
    (r : Option Ptr) (e : Error)
    (h : c.Get "openshift-machine-api" (st.heap mp).ObjectMeta.Name = (r, some e)) :
    instanceStatus c (some mp) st =
      (.returned (none, some e),
        { st with trace := st.trace ++
            [.Get "openshift-machine-api" (st.heap mp).ObjectMeta.Name (r, some e)] ++
            [.Errorf ("Didn't find mahine with namespace: " ++ (st.heap mp).ObjectMeta.Namespace
              ++ " and name: " ++ (st.heap mp).ObjectMeta.Name)] }) := by
  simp [instanceStatus, bind, Go.bind, deref, Go.pure, read, callGet, h, pure, emit]

theorem instanceStatus_get_nil (c : OvirtClient) (mp : Ptr) (st : State)
    (h : c.Get "openshift-machine-api" (st.heap mp).ObjectMeta.Name = (none, none)) :
    instanceStatus c (some mp) st =
      (.panicked "invalid memory address or nil pointer dereference",
        { st with trace := st.trace ++
            [.Get "openshift-machine-api" (st.heap mp).ObjectMeta.Name (none, none)] }) := by
  simp [instanceStatus, bind, Go.bind, deref, Go.pure, read, callGet, h, pure, emit, goPanic]

theorem instanceStatus_get_ok (c : OvirtClient) (mp lp : Ptr) (st : State)
    (h : c.Get "openshift-machine-api" (st.heap mp).ObjectMeta.Name = (some lp, none)) :
    instanceStatus c (some mp) st =
      machineInstanceStatus c (some lp)
        { st with trace := st.trace ++
            [.Get "openshift-machine-api" (st.heap mp).ObjectMeta.Name (some lp, none)] ++
            [.Infof ("Found machine " ++ (st.heap lp).ObjectMeta.Name)] } := by
  simp [instanceStatus, bind, Go.bind, deref, Go.pure, read, callGet, h, pure, emit]

theorem updateInstanceStatus_get_error (c : OvirtClient) (mp : Ptr) (st : State)
    (r : Option Ptr) (e : Error)
    (h : c.Get "openshift-machine-api" (st.heap mp).ObjectMeta.Name = (r, some e)) :
    updateInstanceStatus c (some mp) st =
      (.returned (some e),
        { st with trace := st.trace ++
            [.Get "openshift-machine-api" (st.heap mp).ObjectMeta.Name (r, some e)] }) := by
  simp [updateInstanceStatus, bind, Go.bind, deref, Go.pure, read, callGet, h, pure]

theorem updateInstanceStatus_get_nil (c : OvirtClient) (mp : Ptr) (st : State)
    (h : c.Get "openshift-machine-api" (st.heap mp).ObjectMeta.Name = (none, none)) :
    updateInstanceStatus c (some mp) st =
      (.returned (some (Errorf
          "Machine has already been deleted. Cannot update current instance status for machine "
          (st.heap mp).ObjectMeta.Name)),
        { st with trace := st.trace ++
            [.Get "openshift-machine-api" (st.heap mp).ObjectMeta.Name (none, none)] }) := by
  simp [updateInstanceStatus, bind, Go.bind, deref, Go.pure, read, callGet, h, pure]

theorem updateInstanceStatus_get_ok (c : OvirtClient) (mp lp : Ptr) (st : State)
    (h : c.Get "openshift-machine-api" (st.heap mp).ObjectMeta.Name = (some lp, none)) :
    updateInstanceStatus c (some mp) st =
      match setMachineInstanceStatus c (some lp) (some mp)
        { st with trace := st.trace ++
            [.Get "openshift-machine-api" (st.heap mp).ObjectMeta.Name (some lp, none)] } with
      | (.panicked msg, st') => (.panicked msg, st')
      | (.returned (_, some e), st') => (.returned (some e), st')
      | (.returned (m, none), st') => callUpdate c m st' := by
  simp only [updateInstanceStatus, bind, Go.bind, deref, Go.pure, read, callGet, h, pure]
  simp
  split <;> rename_i heq <;> simp [Go.bind, heq, Go.pure]

theorem updateInstanceStatus_nil_map (c : OvirtClient) (mp lp : Ptr) (st : State)
    (h : c.Get "openshift-machine-api" (st.heap mp).ObjectMeta.Name = (some lp, none))
    (ha : (st.heap mp).ObjectMeta.Annotations = none) :
    updateInstanceStatus c (some mp) st =
      (.panicked "assignment to entry in nil map",
        { st with trace := st.trace ++
            [.Get "openshift-machine-api" (st.heap mp).ObjectMeta.Name (some lp, none)] }) := by
  rw [updateInstanceStatus_get_ok c mp lp st h,
    setMachineInstanceStatus_nil_map c (some lp) mp
      { st with trace := st.trace ++
        [.Get "openshift-machine-api" (st.heap mp).ObjectMeta.Name (some lp, none)] } ha]

theorem updateInstanceStatus_encode_error (c : OvirtClient) (mp lp : Ptr) (st : State)
    (err : Error)
    (h : c.Get "openshift-machine-api" (st.heap mp).ObjectMeta.Name = (some lp, none))
    (ha : (st.heap mp).ObjectMeta.Annotations ≠ none)
    (he : c.Encode (annotate (st.heap mp) InstanceStatusAnnotationKey "") = .error err) :
    updateInstanceStatus c (some mp) st =
      (.returned (some (Errorf "encoding failure: " err.msg)),
        { st with
          heap := Function.update st.heap mp
            (annotate (st.heap mp) InstanceStatusAnnotationKey "")
          trace := st.trace ++
            [.Get "openshift-machine-api" (st.heap mp).ObjectMeta.Name (some lp, none),
              .Encode (annotate (st.heap mp) InstanceStatusAnnotationKey "")
                (.error err)] }) := by
  rw [updateInstanceStatus_get_ok c mp lp st h,
    setMachineInstanceStatus_encode_error c (some lp) mp
      { st with trace := st.trace ++
        [.Get "openshift-machine-api" (st.heap mp).ObjectMeta.Name (some lp, none)] } err ha he]
  simp

theorem updateInstanceStatus_ok (c : OvirtClient) (mp lp : Ptr) (st : State) (text : String)
    (h : c.Get "openshift-machine-api" (st.heap mp).ObjectMeta.Name = (some lp, none))
    (ha : (st.heap mp).ObjectMeta.Annotations ≠ none)
    (he : c.Encode (annotate (st.heap mp) InstanceStatusAnnotationKey "") = .ok text) :
    updateInstanceStatus c (some mp) st =
      (.returned (c.Update (some lp)
          (setMachineInstanceStatus c (some lp) (some mp) st).2.heap),
        { st with
          heap := (setMachineInstanceStatus c (some lp) (some mp) st).2.heap
          trace := st.trace ++
            [.Get "openshift-machine-api" (st.heap mp).ObjectMeta.Name (some lp, none),
              .Encode (annotate (st.heap mp) InstanceStatusAnnotationKey "") (.ok text),
              .Update (some lp)
                (some ((setMachineInstanceStatus c (some lp) (some mp) st).2.heap lp))
                (c.Update (some lp)
                  (setMachineInstanceStatus c (some lp) (some mp) st).2.heap)] }) := by
  rw [updateInstanceStatus_get_ok c mp lp st h,
    setMachineInstanceStatus_ok c lp mp
      { st with trace := st.trace ++
        [.Get "openshift-machine-api" (st.heap mp).ObjectMeta.Name (some lp, none)] } text ha he,
    setMachineInstanceStatus_ok c lp mp st text ha he]
  simp [callUpdate]

theorem setMachineInstanceStatus_encode_event (c : OvirtClient) (machine : Option Ptr)
    (sp : Ptr) (st : State) (obj : Machine) (text : String)
    (h : Event.Encode obj (.ok text) ∈
      (setMachineInstanceStatus c machine (some sp) st).2.trace.drop st.trace.length) :
    (st.heap sp).ObjectMeta.Annotations ≠ none ∧
      obj = annotate (st.heap sp) InstanceStatusAnnotationKey "" ∧
      c.Encode (annotate (st.heap sp) InstanceStatusAnnotationKey "") = .ok text := by
  by_cases ha : (st.heap sp).ObjectMeta.Annotations = none
  · rw [setMachineInstanceStatus_nil_map c machine sp st ha] at h
    simp at h
  · cases he : c.Encode (annotate (st.heap sp) InstanceStatusAnnotationKey "") with
    | error err =>
      rw [setMachineInstanceStatus_encode_error c machine sp st err ha he] at h
      simp at h
    | ok text' =>
      cases machine with
      | none =>
        rw [setMachineInstanceStatus_nil_machine c sp st text' ha he] at h
        simp at h
        exact ⟨ha, h.1, by rw [h.2]⟩
      | some lp =>
        rw [setMachineInstanceStatus_ok c lp sp st text' ha he] at h
        simp at h
        exact ⟨ha, h.1, by rw [h.2]⟩

theorem mapLookup_cleared_or_same (heap : Ptr → Machine) (lp sp : Ptr) (k : String)
    (hk : k ≠ InstanceStatusAnnotationKey) :
    mapLookup (Function.update heap sp
        (annotate (heap sp) InstanceStatusAnnotationKey "") lp).ObjectMeta.Annotations k =
      mapLookup (heap lp).ObjectMeta.Annotations k := by
  by_cases hl : lp = sp
  · subst hl
    simp [mapLookup_annotate_other _ _ _ _ hk]
  · simp [Function.update_noteq hl]

theorem fields_cleared_or_same (heap : Ptr → Machine) (lp sp : Ptr) :
    (Function.update heap sp
        (annotate (heap sp) InstanceStatusAnnotationKey "") lp).TypeMeta =
      (heap lp).TypeMeta ∧
    (Function.update heap sp
        (annotate (heap sp) InstanceStatusAnnotationKey "") lp).ObjectMeta.Name =
      (heap lp).ObjectMeta.Name ∧
    (Function.update heap sp
        (annotate (heap sp) InstanceStatusAnnotationKey "") lp).ObjectMeta.Namespace =
      (heap lp).ObjectMeta.Namespace ∧
    (Function.update heap sp
        (annotate (heap sp) InstanceStatusAnnotationKey "") lp).Spec = (heap lp).Spec ∧
    (Function.update heap sp
        (annotate (heap sp) InstanceStatusAnnotationKey "") lp).Status =
      (heap lp).Status := by
  by_cases hl : lp = sp
  · subst hl
    simp [annotate]
  · simp [Function.update_noteq hl]

theorem setMachineInstanceStatus_snapshot_after (c : OvirtClient) (machine : Option Ptr)
    (sp : Ptr) (st : State) (hmap : (st.heap sp).ObjectMeta.Annotations ≠ none)
    (hne : machine ≠ some sp) :
    (setMachineInstanceStatus c machine (some sp) st).2.heap sp =
      annotate (st.heap sp) InstanceStatusAnnotationKey "" := by
  cases he : c.Encode (annotate (st.heap sp) InstanceStatusAnnotationKey "") with
  | error err =>
    rw [setMachineInstanceStatus_encode_error c machine sp st err hmap he]
    simp
  | ok text =>
    cases machine with
    | none =>
      rw [setMachineInstanceStatus_nil_machine c sp st text hmap he]
      simp
    | some lp =>
      have hl : sp ≠ lp := fun e => hne (by rw [e])
      rw [setMachineInstanceStatus_ok c lp sp st text hmap he]
      simp [Function.update_noteq hl]

theorem updateInstanceStatus_snapshot_after (c : OvirtClient) (mp lp : Ptr) (st : State)
    (hmap : (st.heap mp).ObjectMeta.Annotations ≠ none) (hne : lp ≠ mp)
    (hg : c.Get "openshift-machine-api" (st.heap mp).ObjectMeta.Name = (some lp, none)) :
    (updateInstanceStatus c (some mp) st).2.heap mp =
      annotate (st.heap mp) InstanceStatusAnnotationKey "" := by
  cases he : c.Encode (annotate (st.heap mp) InstanceStatusAnnotationKey "") with
  | error err =>
    rw [updateInstanceStatus_encode_error c mp lp st err hg hmap he]
    simp
  | ok text =>
    rw [updateInstanceStatus_ok c mp lp st text hg hmap he]
    exact setMachineInstanceStatus_snapshot_after c (some lp) mp st hmap
      (fun e => hne (Option.some.inj e))

/-- The round trip for a snapshot that has an annotation map: when the serializer writes it
(status cleared) as a text that is not empty and reads that text back as the same record,
storing it on a live record and reading the live record back gives a new record equal to the
snapshot with `Annotations["instance-status"] = ""`. -/
theorem roundTrip_with_annotation_map (c : OvirtClient) (lp sp : Ptr) (st : State)
    (text : String)
    (hmap : (st.heap sp).ObjectMeta.Annotations ≠ none)
    (he : c.Encode (annotate (st.heap sp) InstanceStatusAnnotationKey "") = .ok text)
    (hne : text ≠ "")
    (hd : c.Decode text ⟨"machine.openshift.io", "v1beta1", "Machine"⟩ =
      .ok (annotate (st.heap sp) InstanceStatusAnnotationKey "")) :
    (setMachineInstanceStatus c (some lp) (some sp) st).1 = .returned (some lp, none) ∧
    ∃ r, (machineInstanceStatus c (some lp)
          (setMachineInstanceStatus c (some lp) (some sp) st).2).1 = .returned (some r, none) ∧
      (machineInstanceStatus c (some lp)
          (setMachineInstanceStatus c (some lp) (some sp) st).2).2.heap r =
        annotate (st.heap sp) InstanceStatusAnnotationKey "" := by
  rw [setMachineInstanceStatus_ok c lp sp st text hmap he]
  refine ⟨rfl, st.next, ?_⟩
  have hget : mapGet ((Function.update
      (Function.update st.heap sp (annotate (st.heap sp) InstanceStatusAnnotationKey ""))
      lp (annotate (Function.update st.heap sp
          (annotate (st.heap sp) InstanceStatusAnnotationKey "") lp)
        InstanceStatusAnnotationKey text)) lp).ObjectMeta.Annotations
      InstanceStatusAnnotationKey = text := by
    simp [mapGet_annotate_same]
  rw [machineInstanceStatus_ok c lp _ (annotate (st.heap sp) InstanceStatusAnnotationKey "")
    (by simpa only [hget] using hne) (by simpa only [hget] using hd)]
  simp

theorem newEvents_of_trace {α : Type} (x : Go α) (st : State) (evs : List Event)
    (h : (x st).2.trace = st.trace ++ evs) : newEvents x st = evs := by
  simp [newEvents, h]

/-! ## The trace of each function -/

theorem machineInstanceStatus_trace (c : OvirtClient) (machine : Option Ptr) (st : State) :
    ∃ evs, (machineInstanceStatus c machine st).2.trace = st.trace ++ evs ∧
      ∀ e ∈ evs, e.isUpdate = false := by
  cases machine with
  | none => exact ⟨[], by simp [machineInstanceStatus, bind, Go.bind, deref, goPanic], by simp⟩
  | some mp =>
    by_cases ha : mapGet (st.heap mp).ObjectMeta.Annotations InstanceStatusAnnotationKey = ""
    · exact ⟨[], by rw [machineInstanceStatus_no_state c mp st ha]; simp, by simp⟩
    · cases hd : c.Decode (mapGet (st.heap mp).ObjectMeta.Annotations InstanceStatusAnnotationKey)
          ⟨"machine.openshift.io", "v1beta1", "Machine"⟩ with
      | error err =>
        exact ⟨_, by rw [machineInstanceStatus_decode_error c mp st err ha hd],
          by simp [Event.isUpdate]⟩
      | ok v =>
        exact ⟨_, by rw [machineInstanceStatus_ok c mp st v ha hd], by simp [Event.isUpdate]⟩

theorem setMachineInstanceStatus_trace (c : OvirtClient) (machine status : Option Ptr)
    (st : State) :
    ∃ evs, (setMachineInstanceStatus c machine status st).2.trace = st.trace ++ evs ∧
      ∀ e ∈ evs, e.isUpdate = false := by
  cases status with
  | none => exact ⟨[], by simp [setMachineInstanceStatus, bind, Go.bind, deref, goPanic], by simp⟩
  | some sp =>
    by_cases ha : (st.heap sp).ObjectMeta.Annotations = none
    · exact ⟨[], by rw [setMachineInstanceStatus_nil_map c machine sp st ha]; simp, by simp⟩
    · cases he : c.Encode (annotate (st.heap sp) InstanceStatusAnnotationKey "") with
      | error err =>
        exact ⟨_, by rw [setMachineInstanceStatus_encode_error c machine sp st err ha he],
          by simp [Event.isUpdate]⟩
      | ok text =>
        cases machine with
        | none =>
          exact ⟨_, by rw [setMachineInstanceStatus_nil_machine c sp st text ha he],
            by simp [Event.isUpdate]⟩
        | some lp =>
          exact ⟨_, by rw [setMachineInstanceStatus_ok c lp sp st text ha he],
            by simp [Event.isUpdate]⟩

theorem instanceStatus_trace (c : OvirtClient) (machine : Option Ptr) (st : State) :
    ∃ evs, (instanceStatus c machine st).2.trace = st.trace ++ evs ∧
      ∀ e ∈ evs, e.isUpdate = false := by
  cases machine with
  | none => exact ⟨[], by simp [instanceStatus, bind, Go.bind, deref, goPanic], by simp⟩
  | some mp =>
    rcases hg : c.Get "openshift-machine-api" (st.heap mp).ObjectMeta.Name with ⟨r, _ | e⟩
    · cases r with
      | none =>
        exact ⟨_, by rw [instanceStatus_get_nil c mp st hg], by simp [Event.isUpdate]⟩
      | some lp =>
        obtain ⟨evs, h1, h2⟩ := machineInstanceStatus_trace c (some lp)
          { st with trace := st.trace ++
            [.Get "openshift-machine-api" (st.heap mp).ObjectMeta.Name (some lp, none)] ++
            [.Infof ("Found machine " ++ (st.heap lp).ObjectMeta.Name)] }
        refine ⟨[.Get "openshift-machine-api" (st.heap mp).ObjectMeta.Name (some lp, none),
          .Infof ("Found machine " ++ (st.heap lp).ObjectMeta.Name)] ++ evs, ?_, ?_⟩
        · rw [instanceStatus_get_ok c mp lp st hg, h1]
          simp
        · intro e he
          rcases List.mem_append.mp he with he | he
          · simp at he
            rcases he with he | he <;> simp [he, Event.isUpdate]
          · exact h2 e he
    · exact ⟨[.Get "openshift-machine-api" (st.heap mp).ObjectMeta.Name (r, some e),
          .Errorf ("Didn't find mahine with namespace: " ++ (st.heap mp).ObjectMeta.Namespace
            ++ " and name: " ++ (st.heap mp).ObjectMeta.Name)],
        by rw [instanceStatus_get_error c mp st r e hg]; simp,
        by simp [Event.isUpdate]⟩

/-! ## The claims -/

/-- C1 fails on the code: `node1Bare`, a snapshot with no annotation map, is one the
serializer encodes and reads back unchanged, with or without the cleared status key, yet
`setMachineInstanceStatus` does not succeed on it: it panics at line 102, the live record
gets no `instance-status` annotation, and reading the live record back yields no snapshot. -/
theorem roundTrip_fails_without_annotation_map :
    fixtureState.heap 2 = node1Bare ∧
    (fixtureClient (some 1, none)).Encode node1Bare = .ok (render node1Bare) ∧
    (fixtureClient (some 1, none)).Decode (render node1Bare)
      ⟨"machine.openshift.io", "v1beta1", "Machine"⟩ = .ok node1Bare ∧
    (fixtureClient (some 1, none)).Encode
        (annotate node1Bare InstanceStatusAnnotationKey "") =
      .ok (render (annotate node1Bare InstanceStatusAnnotationKey "")) ∧
    (fixtureClient (some 1, none)).Decode
        (render (annotate node1Bare InstanceStatusAnnotationKey ""))
        ⟨"machine.openshift.io", "v1beta1", "Machine"⟩ =
      .ok (annotate node1Bare InstanceStatusAnnotationKey "") ∧
    (setMachineInstanceStatus (fixtureClient (some 1, none)) (some 1) (some 2) fixtureState).1 ≠
      .returned (some 1, none) ∧
    (setMachineInstanceStatus (fixtureClient (some 1, none)) (some 1) (some 2) fixtureState).1 =
      .panicked "assignment to entry in nil map" ∧
    (machineInstanceStatus (fixtureClient (some 1, none)) (some 1)
      (setMachineInstanceStatus (fixtureClient (some 1, none)) (some 1) (some 2)
        fixtureState).2).1 = .returned (none, none) := by
  decide

/-- The round trip on the fixture: storing `node1` on the live record at address 1 and reading
that record back gives `node1` with its `instance-status` annotation empty. -/
theorem roundTrip_node1 :
    ∃ r, (machineInstanceStatus (fixtureClient (some 1, none)) (some 1)
          (setMachineInstanceStatus (fixtureClient (some 1, none)) (some 1) (some 0)
            fixtureState).2).1 = .returned (some r, none) ∧
      (machineInstanceStatus (fixtureClient (some 1, none)) (some 1)
          (setMachineInstanceStatus (fixtureClient (some 1, none)) (some 1) (some 0)
            fixtureState).2).2.heap r =
        annotate node1 InstanceStatusAnnotationKey "" :=
  (roundTrip_with_annotation_map (fixtureClient (some 1, none)) 1 0 fixtureState
    (render (annotate node1 InstanceStatusAnnotationKey ""))
    (by decide) (by decide) (by decide) (by decide)).2

/-- C2 fails on the code: for the snapshot `node1Bare`, which has no annotation map, encoding
succeeds (the serializer writes both the snapshot and the snapshot with its status key
cleared), yet `setMachineInstanceStatus(L, S)` does not return `L`: it panics at line 102
before the serializer is reached, the live record keeps its nil annotation map and gets no
`instance-status` annotation, and `updateInstanceStatus` passes nothing to the registry
`Update`. -/
theorem setMachineInstanceStatus_nil_annotations_stores_nothing :
    (fixtureState.heap 2).ObjectMeta.Annotations = none ∧
    (fixtureClient (some 1, none)).Encode (fixtureState.heap 2) =
      .ok (render (fixtureState.heap 2)) ∧
    (fixtureClient (some 1, none)).Encode
        (annotate (fixtureState.heap 2) InstanceStatusAnnotationKey "") =
      .ok (render (annotate (fixtureState.heap 2) InstanceStatusAnnotationKey "")) ∧
    (setMachineInstanceStatus (fixtureClient (some 1, none)) (some 1) (some 2) fixtureState).1 ≠
      .returned (some 1, none) ∧
    (setMachineInstanceStatus (fixtureClient (some 1, none)) (some 1) (some 2) fixtureState).1 =
      .panicked "assignment to entry in nil map" ∧
    (setMachineInstanceStatus (fixtureClient (some 1, none)) (some 1) (some 2)
        fixtureState).2.heap 1 = fixtureState.heap 1 ∧
    ((setMachineInstanceStatus (fixtureClient (some 1, none)) (some 1) (some 2)
        fixtureState).2.heap 1).ObjectMeta.Annotations = none ∧
    mapGet ((setMachineInstanceStatus (fixtureClient (some 1, none)) (some 1) (some 2)
        fixtureState).2.heap 1).ObjectMeta.Annotations InstanceStatusAnnotationKey ≠
      render (annotate (fixtureState.heap 2) InstanceStatusAnnotationKey "") ∧
    newEvents (updateInstanceStatus (fixtureClient (some 1, none)) (some 2)) fixtureState =
      [.Get "openshift-machine-api" "node-1" (some 1, none)] := by
  decide

/-- What the code does when the encode step is reached: whenever the encode step of
`setMachineInstanceStatus(L, S)` answers with `text`, the value that was encoded is `S` with
its `instance-status` annotation cleared, the call returns the pointer `L` itself,
`L.Annotations["instance-status"]` is `text`, the annotation map of `L` exists afterwards, and
every other annotation key and every other field of `L` is as before; `updateInstanceStatus`,
when its fetch returned `L`, then hands exactly this pointer and this record to the registry
`Update` and returns what `Update` returns. -/
theorem setMachineInstanceStatus_stores_encoded_status (c : OvirtClient) (lp sp : Ptr)
    (st : State) (obj : Machine) (text : String)
    (h : Event.Encode obj (.ok text) ∈
      newEvents (setMachineInstanceStatus c (some lp) (some sp)) st) :
    (setMachineInstanceStatus c (some lp) (some sp) st).1 = .returned (some lp, none) ∧
    obj = annotate (st.heap sp) InstanceStatusAnnotationKey "" ∧
    c.Encode obj = .ok text ∧
    mapGet ((setMachineInstanceStatus c (some lp) (some sp) st).2.heap lp).ObjectMeta.Annotations
      InstanceStatusAnnotationKey = text ∧
    ((setMachineInstanceStatus c (some lp) (some sp) st).2.heap lp).ObjectMeta.Annotations
      ≠ none ∧
    (∀ k, k ≠ InstanceStatusAnnotationKey →
      mapLookup
          ((setMachineInstanceStatus c (some lp) (some sp) st).2.heap lp).ObjectMeta.Annotations k =
        mapLookup (st.heap lp).ObjectMeta.Annotations k) ∧
    ((setMachineInstanceStatus c (some lp) (some sp) st).2.heap lp).TypeMeta =
      (st.heap lp).TypeMeta ∧
    ((setMachineInstanceStatus c (some lp) (some sp) st).2.heap lp).ObjectMeta.Name =
      (st.heap lp).ObjectMeta.Name ∧
    ((setMachineInstanceStatus c (some lp) (some sp) st).2.heap lp).ObjectMeta.Namespace =
      (st.heap lp).ObjectMeta.Namespace ∧
    ((setMachineInstanceStatus c (some lp) (some sp) st).2.heap lp).Spec = (st.heap lp).Spec ∧
    ((setMachineInstanceStatus c (some lp) (some sp) st).2.heap lp).Status =
      (st.heap lp).Status ∧
    (c.Get "openshift-machine-api" (st.heap sp).ObjectMeta.Name = (some lp, none) →
      (updateInstanceStatus c (some sp) st).1 =
          .returned (c.Update (some lp)
            (setMachineInstanceStatus c (some lp) (some sp) st).2.heap) ∧
        (updateInstanceStatus c (some sp) st).2.heap =
          (setMachineInstanceStatus c (some lp) (some sp) st).2.heap ∧
        newEvents (updateInstanceStatus c (some sp)) st =
          [.Get "openshift-machine-api" (st.heap sp).ObjectMeta.Name (some lp, none),
            .Encode obj (.ok text),
            .Update (some lp)
              (some ((setMachineInstanceStatus c (some lp) (some sp) st).2.heap lp))
              (c.Update (some lp)
                (setMachineInstanceStatus c (some lp) (some sp) st).2.heap)]) := by
  obtain ⟨ha, hobj, he⟩ := setMachineInstanceStatus_encode_event c (some lp) sp st obj text h
  subst hobj
  obtain ⟨f1, f2, f3, f4, f5⟩ := fields_cleared_or_same st.heap lp sp
  refine ⟨?_, rfl, he, ?_, ?_, ?_, ?_, ?_, ?_, ?_, ?_, ?_⟩
  · rw [setMachineInstanceStatus_ok c lp sp st text ha he]
  · rw [setMachineInstanceStatus_ok c lp sp st text ha he]
    simp [mapGet_annotate_same]
  · rw [setMachineInstanceStatus_ok c lp sp st text ha he]
    simp [annotate]
  · intro k hk
    rw [setMachineInstanceStatus_ok c lp sp st text ha he]
    simp only [Function.update_same]
    rw [mapLookup_annotate_other _ _ _ _ hk, mapLookup_cleared_or_same _ _ _ _ hk]
  · rw [setMachineInstanceStatus_ok c lp sp st text ha he]
    simpa [annotate] using f1
  · rw [setMachineInstanceStatus_ok c lp sp st text ha he]
    simpa [annotate] using f2
  · rw [setMachineInstanceStatus_ok c lp sp st text ha he]
    simpa [annotate] using f3
  · rw [setMachineInstanceStatus_ok c lp sp st text ha he]
    simpa [annotate] using f4
  · rw [setMachineInstanceStatus_ok c lp sp st text ha he]
    simpa [annotate] using f5
  · intro hg
    have hu := updateInstanceStatus_ok c sp lp st text hg ha he
    refine ⟨by rw [hu], by rw [hu], ?_⟩
    exact newEvents_of_trace _ st _ (by rw [hu])

theorem setMachineInstanceStatus_stores_encoded_status_witness :
    Event.Encode (annotate node1 InstanceStatusAnnotationKey "")
        (.ok (render (annotate node1 InstanceStatusAnnotationKey ""))) ∈
      newEvents (setMachineInstanceStatus (fixtureClient (some 1, none)) (some 1) (some 0))
        fixtureState ∧
    (setMachineInstanceStatus (fixtureClient (some 1, none)) (some 1) (some 0) fixtureState).1 =
      .returned (some 1, none) ∧
    mapGet ((setMachineInstanceStatus (fixtureClient (some 1, none)) (some 1) (some 0)
        fixtureState).2.heap 1).ObjectMeta.Annotations InstanceStatusAnnotationKey =
      render (annotate node1 InstanceStatusAnnotationKey "") :=
  ⟨by decide,
    (setMachineInstanceStatus_stores_encoded_status (fixtureClient (some 1, none)) 1 0
      fixtureState (annotate node1 InstanceStatusAnnotationKey "")
      (render (annotate node1 InstanceStatusAnnotationKey "")) (by decide)).1,
    (setMachineInstanceStatus_stores_encoded_status (fixtureClient (some 1, none)) 1 0
      fixtureState (annotate node1 InstanceStatusAnnotationKey "")
      (render (annotate node1 InstanceStatusAnnotationKey "")) (by decide)).2.2.2.1⟩

/-- C3: when the registry fetch of `instanceStatus` returns an error `e` (whatever record
pointer comes with it, and whatever kind of error `e` is), the call returns no snapshot
together with exactly `e`. -/
theorem instanceStatus_returns_fetch_error (c : OvirtClient) (mp : Ptr) (st : State)
    (r : Option Ptr) (e : Error)
    (h : c.Get "openshift-machine-api" (st.heap mp).ObjectMeta.Name = (r, some e)) :
    (instanceStatus c (some mp) st).1 = .returned (none, some e) := by
  rw [instanceStatus_get_error c mp st r e h]

theorem instanceStatus_returns_fetch_error_witness :
    (fixtureClient (some 1, some unavailable)).Get "openshift-machine-api"
        (fixtureState.heap 0).ObjectMeta.Name = (some 1, some unavailable) ∧
      (instanceStatus (fixtureClient (some 1, some unavailable)) (some 0) fixtureState).1 =
        .returned (none, some unavailable) :=
  ⟨rfl, instanceStatus_returns_fetch_error _ 0 fixtureState (some 1) unavailable rfl⟩

/-- C4, as stated, fails: on a registry that answers not-found, `instanceStatus` returns the
not-found error, not "no snapshot, no error". -/
theorem instanceStatus_not_found_is_an_error :
    IsNotFound notFound = true ∧
      (fixtureClient (none, some notFound)).Get "openshift-machine-api"
        (fixtureState.heap 0).ObjectMeta.Name = (none, some notFound) ∧
      (instanceStatus (fixtureClient (none, some notFound)) (some 0) fixtureState).1 =
        .returned (none, some notFound) ∧
      (instanceStatus (fixtureClient (none, some notFound)) (some 0) fixtureState).1 ≠
        .returned (none, none) := by
  decide

/-- C4, amended: when the registry fetch of `instanceStatus` returns a not-found error, the
call returns no snapshot together with that not-found error; its result is never
"no snapshot, no error". -/
theorem instanceStatus_not_found_propagated (c : OvirtClient) (mp : Ptr) (st : State)
    (r : Option Ptr) (e : Error) (hnf : IsNotFound e = true)
    (h : c.Get "openshift-machine-api" (st.heap mp).ObjectMeta.Name = (r, some e)) :
    (instanceStatus c (some mp) st).1 = .returned (none, some e) ∧
      (instanceStatus c (some mp) st).1 ≠ .returned (none, none) := by
  have _ := hnf
  rw [instanceStatus_get_error c mp st r e h]
  exact ⟨rfl, by simp⟩

theorem instanceStatus_not_found_propagated_witness :
    (instanceStatus (fixtureClient (some 1, some notFound)) (some 2) fixtureState).1 =
        .returned (none, some notFound) :=
  (instanceStatus_not_found_propagated (fixtureClient (some 1, some notFound)) 2 fixtureState
    (some 1) notFound (by decide) rfl).1

/-- C5 fails on the code: when the registry fetch succeeds with a nil record, the log line
`klog.Infof("Found machine %s", currentMachine.Name)` of line 47 reads through the nil
pointer before the nil check of line 48 is reached, and `instanceStatus` panics instead of
returning "no snapshot, no error". -/
theorem instanceStatus_nil_record_panics :
    (fixtureClient (none, none)).Get "openshift-machine-api"
        (fixtureState.heap 0).ObjectMeta.Name = (none, none) ∧
      (instanceStatus (fixtureClient (none, none)) (some 0) fixtureState).1 =
        .panicked "invalid memory address or nil pointer dereference" ∧
      (instanceStatus (fixtureClient (none, none)) (some 0) fixtureState).1 ≠
        .returned (none, none) := by
  decide

/-- C6, as stated, fails: when the fetch fails, `updateInstanceStatus` returns the error of
the registry, which is not the "Machine has already been deleted" error. -/
theorem updateInstanceStatus_fetch_error_not_deleted_error :
    (fixtureClient (none, some notFound)).Get "openshift-machine-api"
        (fixtureState.heap 0).ObjectMeta.Name = (none, some notFound) ∧
      (updateInstanceStatus (fixtureClient (none, some notFound)) (some 0) fixtureState).1 =
        .returned (some notFound) ∧
      (updateInstanceStatus (fixtureClient (none, some notFound)) (some 0) fixtureState).1 ≠
        .returned (some (Errorf
          "Machine has already been deleted. Cannot update current instance status for machine "
          "node-1")) := by
  decide

/-- C6, amended: when the registry fetch of `updateInstanceStatus` fails, or succeeds with a
nil record, the call fails: with the error of the registry itself, unchanged, when the fetch
failed, and with the "Machine has already been deleted. Cannot update current instance status"
error naming the machine when the fetch succeeded with a nil record. -/
theorem updateInstanceStatus_fails_without_record (c : OvirtClient) (mp : Ptr) (st : State)
    (h : (c.Get "openshift-machine-api" (st.heap mp).ObjectMeta.Name).2 ≠ none ∨
      c.Get "openshift-machine-api" (st.heap mp).ObjectMeta.Name = (none, none)) :
    (updateInstanceStatus c (some mp) st).1 =
      .returned (some
        (match (c.Get "openshift-machine-api" (st.heap mp).ObjectMeta.Name).2 with
         | some e => e
         | none => Errorf
            "Machine has already been deleted. Cannot update current instance status for machine "
            (st.heap mp).ObjectMeta.Name)) := by
  rcases hg : c.Get "openshift-machine-api" (st.heap mp).ObjectMeta.Name with ⟨r, _ | e⟩
  · rcases h with h | h
    · simp [hg] at h
    · rw [updateInstanceStatus_get_nil c mp st h]
  · rw [updateInstanceStatus_get_error c mp st r e hg]

theorem updateInstanceStatus_fails_without_record_witness :
    (updateInstanceStatus (fixtureClient (none, none)) (some 0) fixtureState).1 =
      .returned (some (.errorString
        "Machine has already been deleted. Cannot update current instance status for machine node-1")) :=
  updateInstanceStatus_fails_without_record (fixtureClient (none, none)) 0 fixtureState
    (Or.inr rfl)

/-- C7: the registry write `Update` is performed only by `updateInstanceStatus`, only after a
fetch that returned a record that is not nil with no error and an encode that succeeded, and
then exactly once, as the last step.  `instanceStatus`, `machineInstanceStatus` and
`setMachineInstanceStatus` perform no write; an `updateInstanceStatus` call either performs
exactly the three calls fetch (non-nil record, no error), encode (success), write, or it
performs no write and did not have both a successful fetch of a record and a successful
encode. -/
theorem update_only_after_fetch_and_encode (c : OvirtClient) (machine status : Option Ptr)
    (st : State) :
    (∀ e ∈ newEvents (instanceStatus c machine) st, e.isUpdate = false) ∧
    (∀ e ∈ newEvents (machineInstanceStatus c machine) st, e.isUpdate = false) ∧
    (∀ e ∈ newEvents (setMachineInstanceStatus c machine status) st, e.isUpdate = false) ∧
    ((∃ name lp obj text m r,
        c.Get "openshift-machine-api" name = (some lp, none) ∧ c.Encode obj = .ok text ∧
        newEvents (updateInstanceStatus c machine) st =
          [.Get "openshift-machine-api" name (some lp, none), .Encode obj (.ok text),
            .Update (some lp) (some m) r]) ∨
      ((∀ e ∈ newEvents (updateInstanceStatus c machine) st, e.isUpdate = false) ∧
        ¬ ((∃ ns name lp,
              Event.Get ns name (some lp, none) ∈ newEvents (updateInstanceStatus c machine) st) ∧
            (∃ obj text,
              Event.Encode obj (.ok text) ∈ newEvents (updateInstanceStatus c machine) st)))) := by
  refine ⟨?_, ?_, ?_, ?_⟩
  · obtain ⟨evs, h1, h2⟩ := instanceStatus_trace c machine st
    rw [newEvents_of_trace _ st evs h1]
    exact h2
  · obtain ⟨evs, h1, h2⟩ := machineInstanceStatus_trace c machine st
    rw [newEvents_of_trace _ st evs h1]
    exact h2
  · obtain ⟨evs, h1, h2⟩ := setMachineInstanceStatus_trace c machine status st
    rw [newEvents_of_trace _ st evs h1]
    exact h2
  · cases machine with
    | none =>
      right
      have h : newEvents (updateInstanceStatus c none) st = [] :=
        newEvents_of_trace _ st [] (by simp [updateInstanceStatus, bind, Go.bind, deref, goPanic])
      simp [h]
    | some mp =>
      rcases hg : c.Get "openshift-machine-api" (st.heap mp).ObjectMeta.Name with ⟨r, _ | e⟩
      · cases r with
        | none =>
          right
          have h := newEvents_of_trace (updateInstanceStatus c (some mp)) st _
            (by rw [updateInstanceStatus_get_nil c mp st hg])
          simp [h, Event.isUpdate]
        | some lp =>
          by_cases ha : (st.heap mp).ObjectMeta.Annotations = none
          · right
            have h := newEvents_of_trace (updateInstanceStatus c (some mp)) st _
              (by rw [updateInstanceStatus_nil_map c mp lp st hg ha])
            simp [h, Event.isUpdate]
          · cases he : c.Encode (annotate (st.heap mp) InstanceStatusAnnotationKey "") with
            | error err =>
              right
              have h := newEvents_of_trace (updateInstanceStatus c (some mp)) st _
                (by rw [updateInstanceStatus_encode_error c mp lp st err hg ha he])
              simp [h, Event.isUpdate]
            | ok text =>
              left
              have h := newEvents_of_trace (updateInstanceStatus c (some mp)) st _
                (by rw [updateInstanceStatus_ok c mp lp st text hg ha he])
              exact ⟨_, _, _, _, _, _, hg, he, h⟩
      · right
        have h := newEvents_of_trace (updateInstanceStatus c (some mp)) st _
          (by rw [updateInstanceStatus_get_error c mp st r e hg])
        simp [h, Event.isUpdate]

/-- C8: `machineInstanceStatus` returns an error exactly when the `instance-status`
annotation value is not empty and the serializer fails to parse it as a
`machine.openshift.io/v1beta1` `Machine`; the result is then no snapshot and the error
"decoding failure: " followed by the underlying error.  When the annotation map is nil, the
key is absent or the value is empty, it returns no snapshot and no error, and nothing is
handed to the serializer. -/
theorem machineInstanceStatus_error_iff (c : OvirtClient) (mp : Ptr) (st : State) :
    ((∃ s e, (machineInstanceStatus c (some mp) st).1 = .returned (s, some e)) ↔
      (mapGet (st.heap mp).ObjectMeta.Annotations InstanceStatusAnnotationKey ≠ "" ∧
        ∃ err, c.Decode (mapGet (st.heap mp).ObjectMeta.Annotations InstanceStatusAnnotationKey)
          ⟨"machine.openshift.io", "v1beta1", "Machine"⟩ = .error err)) ∧
    (∀ err, mapGet (st.heap mp).ObjectMeta.Annotations InstanceStatusAnnotationKey ≠ "" →
      c.Decode (mapGet (st.heap mp).ObjectMeta.Annotations InstanceStatusAnnotationKey)
          ⟨"machine.openshift.io", "v1beta1", "Machine"⟩ = .error err →
      (machineInstanceStatus c (some mp) st).1 =
        .returned (none, some (.errorString ("decoding failure: " ++ err.msg)))) ∧
    (((st.heap mp).ObjectMeta.Annotations = none ∨
        mapLookup (st.heap mp).ObjectMeta.Annotations InstanceStatusAnnotationKey = none ∨
        mapLookup (st.heap mp).ObjectMeta.Annotations InstanceStatusAnnotationKey = some "") →
      (machineInstanceStatus c (some mp) st).1 = .returned (none, none) ∧
        newEvents (machineInstanceStatus c (some mp)) st = []) := by
  refine ⟨?_, ?_, ?_⟩
  · by_cases ha : mapGet (st.heap mp).ObjectMeta.Annotations InstanceStatusAnnotationKey = ""
    · rw [machineInstanceStatus_no_state c mp st ha]
      simp [ha]
    · cases hd : c.Decode (mapGet (st.heap mp).ObjectMeta.Annotations InstanceStatusAnnotationKey)
          ⟨"machine.openshift.io", "v1beta1", "Machine"⟩ with
      | error err =>
        rw [machineInstanceStatus_decode_error c mp st err ha hd]
        simp [ha]
      | ok v =>
        rw [machineInstanceStatus_ok c mp st v ha hd]
        simp [ha]
  · intro err ha hd
    rw [machineInstanceStatus_decode_error c mp st err ha hd]
    rfl
  · intro h
    have ha : mapGet (st.heap mp).ObjectMeta.Annotations InstanceStatusAnnotationKey = "" := by
      rcases h with h | h | h
      · simp [mapGet, mapLookup, h]
      · simp [mapGet, h]
      · simp [mapGet, h]
    rw [machineInstanceStatus_no_state c mp st ha]
    simp [newEvents, machineInstanceStatus_no_state c mp st ha]

theorem machineInstanceStatus_error_iff_witness :
    mapGet (fixtureState.heap 3).ObjectMeta.Annotations InstanceStatusAnnotationKey = "(not json" ∧
      (machineInstanceStatus (fixtureClient (some 3, none)) (some 3) fixtureState).1 =
        .returned (none, some (.errorString "decoding failure: invalid character")) :=
  ⟨by decide,
    (machineInstanceStatus_error_iff (fixtureClient (some 3, none)) 3 fixtureState).2.1
      (.errorString "invalid character") (by decide) (by decide)⟩

/-- C9 fails on the code: for a snapshot with no annotation map, line 102 assigns into a
nil map, so `setMachineInstanceStatus` panics; nothing is cleared, nothing reaches the
serializer, and the call ends neither with the stored text nor with an "encoding failure"
error.  Lines 112-114 guard the live record against exactly this, the snapshot is not
guarded. -/
theorem setMachineInstanceStatus_nil_annotations_panics :
    (fixtureState.heap 2).ObjectMeta.Annotations = none ∧
    (setMachineInstanceStatus (fixtureClient (some 1, none)) (some 1) (some 2) fixtureState).1 =
      .panicked "assignment to entry in nil map" ∧
    newEvents (setMachineInstanceStatus (fixtureClient (some 1, none)) (some 1) (some 2))
      fixtureState = [] ∧
    (updateInstanceStatus (fixtureClient (some 1, none)) (some 2) fixtureState).1 =
      .panicked "assignment to entry in nil map" := by
  decide

/-- C10, as stated, fails.  `node1` at address 0 is a snapshot with an annotation map.  When
it is passed as the live record too and encoding succeeds, line 115 writes the encoded text
over the value line 102 had cleared, so after the call its `instance-status` annotation is
the text and not the empty string.  And when the fetch of `updateInstanceStatus` fails,
`setMachineInstanceStatus` is never called: the snapshot is untouched and the key stays
absent. -/
theorem snapshot_status_not_always_empty :
    (fixtureState.heap 0).ObjectMeta.Annotations ≠ none ∧
    (setMachineInstanceStatus (fixtureClient (some 0, none)) (some 0) (some 0) fixtureState).1 =
      .returned (some 0, none) ∧
    mapGet ((setMachineInstanceStatus (fixtureClient (some 0, none)) (some 0) (some 0)
        fixtureState).2.heap 0).ObjectMeta.Annotations InstanceStatusAnnotationKey =
      "Machine node-1 spec-x status-x annotations owner=infra instance-status=" ∧
    mapGet ((setMachineInstanceStatus (fixtureClient (some 0, none)) (some 0) (some 0)
        fixtureState).2.heap 0).ObjectMeta.Annotations InstanceStatusAnnotationKey ≠ "" ∧
    mapGet ((updateInstanceStatus (fixtureClient (some 0, none)) (some 0)
        fixtureState).2.heap 0).ObjectMeta.Annotations InstanceStatusAnnotationKey ≠ "" ∧
    (updateInstanceStatus (fixtureClient (none, some notFound)) (some 0) fixtureState).2.heap 0 =
      fixtureState.heap 0 ∧
    mapLookup ((updateInstanceStatus (fixtureClient (none, some notFound)) (some 0)
        fixtureState).2.heap 0).ObjectMeta.Annotations InstanceStatusAnnotationKey = none := by
  decide

/-- C10, amended: `setMachineInstanceStatus` writes through the pointer of the caller's
snapshot, not into a copy.  For a snapshot `S` that has an annotation map, and a live record
that is an object other than `S`, after the call `S` is `S` with
`Annotations["instance-status"] = ""`: the key is present with the empty value, every other
annotation and every other field of `S` is unchanged, and this is so whatever the serializer
answered.  `updateInstanceStatus` does the same to `S` when its fetch returned a record, with
no error, that is an object other than `S`; when its fetch fails or returns a nil record it
leaves every record as it was. -/
theorem setMachineInstanceStatus_clears_snapshot_in_place (c : OvirtClient)
    (machine : Option Ptr) (sp : Ptr) (st : State)
    (hmap : (st.heap sp).ObjectMeta.Annotations ≠ none) (hne : machine ≠ some sp) :
    (setMachineInstanceStatus c machine (some sp) st).2.heap sp =
      annotate (st.heap sp) InstanceStatusAnnotationKey "" ∧
    mapLookup ((setMachineInstanceStatus c machine (some sp) st).2.heap sp).ObjectMeta.Annotations
      InstanceStatusAnnotationKey = some "" ∧
    (∀ k, k ≠ InstanceStatusAnnotationKey →
      mapLookup
          ((setMachineInstanceStatus c machine (some sp) st).2.heap sp).ObjectMeta.Annotations k =
        mapLookup (st.heap sp).ObjectMeta.Annotations k) ∧
    ((setMachineInstanceStatus c machine (some sp) st).2.heap sp).TypeMeta =
      (st.heap sp).TypeMeta ∧
    ((setMachineInstanceStatus c machine (some sp) st).2.heap sp).ObjectMeta.Name =
      (st.heap sp).ObjectMeta.Name ∧
    ((setMachineInstanceStatus c machine (some sp) st).2.heap sp).ObjectMeta.Namespace =
      (st.heap sp).ObjectMeta.Namespace ∧
    ((setMachineInstanceStatus c machine (some sp) st).2.heap sp).Spec = (st.heap sp).Spec ∧
    ((setMachineInstanceStatus c machine (some sp) st).2.heap sp).Status =
      (st.heap sp).Status ∧
    (∀ lp, lp ≠ sp →
      c.Get "openshift-machine-api" (st.heap sp).ObjectMeta.Name = (some lp, none) →
      (updateInstanceStatus c (some sp) st).2.heap sp =
        annotate (st.heap sp) InstanceStatusAnnotationKey "") ∧
    (((c.Get "openshift-machine-api" (st.heap sp).ObjectMeta.Name).2 ≠ none ∨
        c.Get "openshift-machine-api" (st.heap sp).ObjectMeta.Name = (none, none)) →
      (updateInstanceStatus c (some sp) st).2.heap = st.heap) := by
  have h := setMachineInstanceStatus_snapshot_after c machine sp st hmap hne
  refine ⟨h, ?_, ?_, ?_, ?_, ?_, ?_, ?_, ?_, ?_⟩
  · rw [h]
    simp [mapLookup, annotate, lookup_mapSet_same]
  · intro k hk
    rw [h, mapLookup_annotate_other _ _ _ _ hk]
  · rw [h]; rfl
  · rw [h]; rfl
  · rw [h]; rfl
  · rw [h]; rfl
  · rw [h]; rfl
  · intro lp hl hg
    exact updateInstanceStatus_snapshot_after c sp lp st hmap hl hg
  · intro hf
    rcases hg : c.Get "openshift-machine-api" (st.heap sp).ObjectMeta.Name with ⟨r, _ | e⟩
    · rcases hf with hf | hf
      · simp [hg] at hf
      · rw [updateInstanceStatus_get_nil c sp st hf]
    · rw [updateInstanceStatus_get_error c sp st r e hg]

theorem setMachineInstanceStatus_clears_snapshot_in_place_witness :
    (fixtureState.heap 0).ObjectMeta.Annotations ≠ none ∧ (some 1 : Option Ptr) ≠ some 0 ∧
    (setMachineInstanceStatus (fixtureClient (some 1, none)) (some 1) (some 0)
        fixtureState).2.heap 0 =
      annotate (fixtureState.heap 0) InstanceStatusAnnotationKey "" ∧
    (updateInstanceStatus (fixtureClient (some 1, none)) (some 0) fixtureState).2.heap 0 =
      annotate (fixtureState.heap 0) InstanceStatusAnnotationKey "" :=
  ⟨by decide, by decide,
    (setMachineInstanceStatus_clears_snapshot_in_place (fixtureClient (some 1, none))
      (some 1) 0 fixtureState (by decide) (by decide)).1,
    (setMachineInstanceStatus_clears_snapshot_in_place (fixtureClient (some 1, none))
      (some 1) 0 fixtureState (by decide) (by decide)).2.2.2.2.2.2.2.2.1 1 (by decide) rfl⟩

end Ovirt
